import Mathlib

/-!
# EventEase authentication/authorization core — verification development

Shallow embedding of the authentication and authorization slice of the
EventEase planner backend: the persisted user schema and its controllers,
the JWT helpers, the auth middleware (strict and optional modes), the
Google OAuth strategies, the events controller ownership checks, and the
server bootstrap.  External collaborators (bcryptjs, jsonwebtoken, the
email validator) are modelled abstractly, as the spec treats them.
-/

namespace EventEase

/-- JS `String.prototype.startsWith`, written over the character list so
that it evaluates by kernel reduction. -/
def jsStartsWith (s pre : String) : Bool := pre.data.isPrefixOf s.data

/-- Drop the first `n` characters of a string (the effect of the
source's `replace` of the `Bearer ` prefix it has just tested for). -/
def jsDrop (s : String) (n : Nat) : String := String.mk (s.data.drop n)

/-- JS `String.prototype.trim` / the mongoose `trim: true` option. -/
def jsTrim (s : String) : String :=
  String.mk (((s.data.dropWhile Char.isWhitespace).reverse.dropWhile
    Char.isWhitespace).reverse)

/-- JS `String.prototype.toLowerCase` / the mongoose `lowercase: true`
option. -/
def jsToLower (s : String) : String := String.mk (s.data.map Char.toLower)

/-- Decidable equality for `Except`, so concrete handler outcomes can be
settled by `decide`. -/
instance {ε α : Type} [DecidableEq ε] [DecidableEq α] :
    DecidableEq (Except ε α) := fun a b =>
  match a, b with
  | .ok x, .ok y =>
      if h : x = y then .isTrue (by rw [h]) else .isFalse (by simp [h])
  | .error x, .error y =>
      if h : x = y then .isTrue (by rw [h]) else .isFalse (by simp [h])
  | .ok _, .error _ => .isFalse (by simp)
  | .error _, .ok _ => .isFalse (by simp)

/-- A persisted user document.  The mongoose user schema declares `name`,
`email`, `password` (the stored bcrypt hash), and `role`; the OAuth code
additionally assigns `googleId`, `avatar`, `isVerified` and `lastLogin`
on user documents, modelled here as optional fields.  `id` stands for
the generated `_id`. -/
structure UserDoc where
  id : String
  name : String
  email : String
  password : String
  role : String
  googleId : Option String := none
  avatar : Option String := none
  isVerified : Option Bool := none
  lastLogin : Option Nat := none
  deriving Repr, DecidableEq

/-- External collaborator (bcryptjs): modelled as an injective salted
tagging of the plaintext.  The auth core only ever feeds it to
`bcryptCompare`, so only injectivity matters. -/
def bcryptHash (pw : String) : String := "$2b$10$" ++ pw

/-- External collaborator (bcrypt.compare): true iff the hash is the hash
of the candidate plaintext. -/
def bcryptCompare (pw hash : String) : Bool := hash == bcryptHash pw

/-- The `role` enum of the persisted user schema. -/
def userSchemaRoleEnum : List String := ["organizer", "guest"]

/-- The fields a call to `User.create(...)` passes; absent fields are
`none`. -/
structure CreateInput where
  name : Option String := none
  email : Option String := none
  password : Option String := none
  role : Option String := none
  googleId : Option String := none
  avatar : Option String := none
  isVerified : Option Bool := none
  deriving Repr, DecidableEq

/-- `User.create` under the persisted user schema: `name`, `email` and
`password` are required (required fails on an empty string), `password`
has `minlength: 6`, `role` must lie in the enum and defaults to
`"guest"`; `email` is lowercased and trimmed, `name` trimmed.  The
pre-save hook then bcrypt-hashes the (possibly already hashed) password.
`fresh` is the generated `_id`. -/
def userCreate (fresh : String) (f : CreateInput) : Except String UserDoc :=
  match f.name, f.email, f.password with
  | some n, some e, some p =>
      if jsTrim n = "" then .error "Name is required"
      else if jsTrim e = "" then .error "Email is required"
      else if p = "" then .error "Password is required"
      else if p.length < 6 then .error "Password is shorter than the minimum allowed length (6)"
      else if (f.role.getD "guest") ∉ userSchemaRoleEnum then
        .error "Role is not a valid enum value"
      else .ok { id := fresh, name := jsTrim n, email := jsTrim (jsToLower e),
                 password := bcryptHash p, role := f.role.getD "guest",
                 googleId := f.googleId, avatar := f.avatar,
                 isVerified := f.isVerified }
  | none, _, _ => .error "Name is required"
  | some _, none, _ => .error "Email is required"
  | some _, some _, none => .error "Password is required"

/-- The identity attached to a request after `.select('-password')`: every
schema path except the stored password hash. -/
structure PublicUser where
  id : String
  name : String
  email : String
  role : String
  googleId : Option String := none
  avatar : Option String := none
  isVerified : Option Bool := none
  lastLogin : Option Nat := none
  deriving Repr, DecidableEq

/-- Drop the password from a stored document (`.select('-password')`). -/
def toPublic (u : UserDoc) : PublicUser :=
  { id := u.id, name := u.name, email := u.email, role := u.role,
    googleId := u.googleId, avatar := u.avatar,
    isVerified := u.isVerified, lastLogin := u.lastLogin }

/-- Outcome of `jwt.verify`: jsonwebtoken throws `TokenExpiredError` on
an expired token and other error classes otherwise; the middleware
distinguishes exactly those two classes of failure. -/
inductive VerifyResult where
  | ok (id : String)
  | expired
  | invalid
  deriving Repr, DecidableEq

/-- Symbolic model of an HMAC-signed JWT (jsonwebtoken): the token carries
its `id` claim, issue and expiry instants, and a MAC over those keyed by
the secret.  A perfect MAC is modelled as the keyed tuple itself, so
verification under a secret is an equality test on the tag. -/
structure Jwt where
  sub : String
  iat : Nat
  exp : Nat
  mac : String × String × Nat × Nat
  deriving Repr, DecidableEq

/-- `jwt.sign({ id }, secret, { expiresIn: lifetime })`. -/
def jwtSign (secret id : String) (now lifetime : Nat) : Jwt :=
  { sub := id, iat := now, exp := now + lifetime,
    mac := (secret, id, now, now + lifetime) }

/-- `jwt.verify(token, secret)` at clock instant `now`: signature check
first, then expiry (jsonwebtoken fails with `TokenExpiredError` once the
clock reaches `exp`). -/
def jwtVerifyTok (secret : String) (t : Jwt) (now : Nat) : VerifyResult :=
  if t.mac ≠ (secret, t.sub, t.iat, t.exp) then .invalid
  else if t.exp ≤ now then .expired
  else .ok t.sub

/-- Thirty days in seconds, the `'30d'` lifetime passed to `jwt.sign`. -/
def thirtyDays : Nat := 30 * 24 * 60 * 60

/-- `generateToken` as defined identically in the auth routes and the
users controller: sign `{ id }` with the server secret and a 30-day
lifetime. -/
def generateToken (secret id : String) (now : Nat) : Jwt :=
  jwtSign secret id now thirtyDays

/-- Outcome of an express auth middleware: terminate the request with a
status and JSON message, or call `next()` with `req.user` optionally
attached. -/
inductive MiddlewareOutcome where
  | respond (status : Nat) (message : String)
  | proceed (user : Option PublicUser)
  deriving Repr, DecidableEq

/-- Token extraction, written out once and repeated verbatim by both
middlewares: an `Authorization` header starting with `Bearer ` wins (the
source strips the first occurrence of `Bearer `, i.e. the 7-character
prefix); otherwise the `token` cookie; otherwise no token. -/
def extractToken (authHeader cookieToken : Option String) : Option String :=
  match authHeader with
  | some h => if jsStartsWith h "Bearer " then some (jsDrop h 7) else cookieToken
  | none => cookieToken

/-- The strict-mode gate `protect` (middleware/auth.js): extract a token,
401 when absent; verify it, 401 with an expiry-specific message on
failure; resolve the subject in the store, 401 when the user no longer
exists; otherwise attach the resolved identity sans password and
continue.  `verify` abstracts `jwt.verify(_, JWT_SECRET)`. -/
def protect (verify : String → VerifyResult) (store : List UserDoc)
    (authHeader cookieToken : Option String) : MiddlewareOutcome :=
  match extractToken authHeader cookieToken with
  | none => .respond 401 "Access denied. No token provided."
  | some t =>
    match verify t with
    | .expired => .respond 401 "Token has expired."
    | .invalid => .respond 401 "Invalid token."
    | .ok uid =>
      match store.find? (fun u => u.id == uid) with
      | none => .respond 401 "Token is not valid. User not found."
      | some u => .proceed (some (toPublic u))

/-- The optional-mode gate `optionalAuth` (middleware/auth.js): same
extraction; when a token is present and verifies, attach whatever
`findById(...).select('-password')` yields (possibly null); on any
verification failure swallow the error; always call `next()`. -/
def optionalAuth (verify : String → VerifyResult) (store : List UserDoc)
    (authHeader cookieToken : Option String) : MiddlewareOutcome :=
  match extractToken authHeader cookieToken with
  | none => .proceed none
  | some t =>
    match verify t with
    | .ok uid => .proceed ((store.find? (fun u => u.id == uid)).map toPublic)
    | _ => .proceed none

/-- HTTP-level result of a users-controller handler: the status, the
JSON message, the string fields of the `data` object, an optional issued
token, and the user store after the handler ran. -/
structure HandlerResult where
  status : Nat
  message : String
  data : List (String × String) := []
  token : Option Jwt := none
  store : List UserDoc
  deriving Repr, DecidableEq

/-- JS truthiness of an optional string field: absent and empty are
falsy. -/
def strTruthy : Option String → Bool
  | none => false
  | some s => s != ""

/-- A registration request body; absent fields are `none`. -/
structure RegisterBody where
  name : Option String := none
  email : Option String := none
  password : Option String := none
  role : Option String := none
  deriving Repr, DecidableEq

/-- `validateUserCreation` (users controller): accumulate validation
error messages over the registration body; the request reaches
`registerUser` iff the list is empty.  `isEmail` abstracts the external
`validator.isEmail`. -/
def validateUserCreation (isEmail : String → Bool) (b : RegisterBody) :
    List String :=
  (if strTruthy b.name = false ∨ (jsTrim (b.name.getD "")).length < 2 then
    ["Name must be at least 2 characters long"] else [])
  ++ (if strTruthy b.name = true ∧ (b.name.getD "").length > 50 then
    ["Name cannot exceed 50 characters"] else [])
  ++ (if strTruthy b.email = false ∨ isEmail (b.email.getD "") = false then
    ["Valid email address is required"] else [])
  ++ (if strTruthy b.email = true ∧ (b.email.getD "").length > 100 then
    ["Email cannot exceed 100 characters"] else [])
  ++ (if strTruthy b.password = false ∨ (b.password.getD "").length < 6 then
    ["Password must be at least 6 characters long"] else [])
  ++ (if strTruthy b.password = true ∧ (b.password.getD "").length > 128 then
    ["Password cannot exceed 128 characters"] else [])
  ++ (if strTruthy b.role = true ∧
        (b.role.getD "") ∉ ["guest", "organizer", "admin"] then
    ["Role must be guest, organizer, or admin"] else [])

/-- `registerUser` (users controller): reject a duplicate email with
400; bcrypt-hash the password; create the user with
`role: role || 'guest'`; answer 201 with `_id`, `name`, `email`, `role`
and a fresh token, mapping a schema `ValidationError` onto 400.
`secret` and `now` feed `generateToken`, `fresh` is the generated
`_id`. -/
def registerUser (secret : String) (now : Nat) (fresh : String)
    (store : List UserDoc) (b : RegisterBody) : HandlerResult :=
  if (store.find? (fun u => u.email == b.email.getD "")).isSome then
    { status := 400, message := "User already exists with this email",
      store := store }
  else
    match userCreate fresh
      { name := b.name, email := b.email,
        password := some (bcryptHash (b.password.getD "")),
        role := some (b.role.getD "guest") } with
    | .ok u =>
      { status := 201, message := "User registered successfully",
        data := [("_id", u.id), ("name", u.name), ("email", u.email),
                 ("role", u.role)],
        token := some (generateToken secret u.id now),
        store := store ++ [u] }
    | .error m => { status := 400, message := m, store := store }

/-- The `POST /api/users` route: `validateUserCreation`, then
`registerUser`; a failed validation answers 400 `Validation failed`
without touching the store. -/
def registerRoute (isEmail : String → Bool) (secret : String) (now : Nat)
    (fresh : String) (store : List UserDoc) (b : RegisterBody) :
    HandlerResult :=
  if validateUserCreation isEmail b = [] then
    registerUser secret now fresh store b
  else { status := 400, message := "Validation failed", store := store }

/-- `loginUser` (users controller): 400 when email or password is
absent, 401 `Invalid email or password` on an unknown email or a failed
bcrypt compare, otherwise 200 with the profile fields and a fresh
token.  The handler performs no store write, so the store it returns is
the unchanged input. -/
def loginUser (secret : String) (now : Nat) (store : List UserDoc)
    (email password : Option String) : HandlerResult :=
  if strTruthy email = false ∨ strTruthy password = false then
    { status := 400, message := "Please provide email and password",
      store := store }
  else
    match store.find? (fun u => u.email == email.getD "") with
    | none => { status := 401, message := "Invalid email or password",
                store := store }
    | some u =>
      if bcryptCompare (password.getD "") u.password = false then
        { status := 401, message := "Invalid email or password",
          store := store }
      else
        { status := 200, message := "Login successful",
          data := [("_id", u.id), ("name", u.name), ("email", u.email),
                   ("role", u.role)],
          token := some (generateToken secret u.id now),
          store := store }

/-- Full JSON serialization of a user document, as produced when a
handler responds with a document fetched without `.select('-password')`:
every stored path is included, the password hash among them. -/
def serializeUser (u : UserDoc) : List (String × String) :=
  [("_id", u.id), ("name", u.name), ("email", u.email),
   ("password", u.password), ("role", u.role)]
  ++ (match u.googleId with | some g => [("googleId", g)] | none => [])
  ++ (match u.avatar with | some a => [("avatar", a)] | none => [])
  ++ (match u.isVerified with | some v => [("isVerified", toString v)] | none => [])
  ++ (match u.lastLogin with | some l => [("lastLogin", toString l)] | none => [])

/-- `getUsers` (users controller): `User.find()` with no field
selection; 200 with every user document fully serialized. -/
def getUsersData (store : List UserDoc) : List (List (String × String)) :=
  store.map serializeUser

/-- `getUser` (users controller): `User.findById(id)` with no field
selection; 404 when absent, otherwise 200 with the full document. -/
def getUserResult (store : List UserDoc) (uid : String) :
    Except (Nat × String) (List (String × String)) :=
  match store.find? (fun u => u.id == uid) with
  | none => .error (404, "User not found")
  | some u => .ok (serializeUser u)

/-- Stand-in for the external `validator.isEmail` in concrete
scenarios. -/
def demoIsEmail (s : String) : Bool := s.data.contains '@'

/-- Persist a modified document (`user.save()`): replace the stored
document carrying the same id. -/
def storeSave (store : List UserDoc) (u : UserDoc) : List UserDoc :=
  store.map (fun v => if v.id == u.id then u else v)

/-- A normalized Google profile as the OAuth strategies and the
id-token login handler consume it. -/
structure GoogleProfile where
  id : String
  email : String
  displayName : String
  photo : Option String := none
  deriving Repr, DecidableEq

/-- The create call of the part_005 Google strategy, repeated verbatim
by the `/google/login` handler: profile fields, a timestamp-derived
password placeholder, role guest and a verified mark. -/
def part005NewUserInput (p : GoogleProfile) (now : Nat) : CreateInput :=
  { googleId := some p.id, name := some p.displayName,
    email := some p.email,
    password := some ("google-auth-" ++ toString now),
    role := some "guest", isVerified := some true, avatar := p.photo }

/-- The part_005 Google strategy verify callback: find by googleId; else
find by email and link (set googleId, mark verified, adopt the profile
photo with a `||` fallback to the existing avatar); else create via
`part005NewUserInput`; in every successful path stamp
`lastLogin = now`, save, and hand the user on. -/
def part005Verify (fresh : String) (now : Nat) (store : List UserDoc)
    (p : GoogleProfile) : Except String (UserDoc × List UserDoc) :=
  match store.find? (fun u => u.googleId == some p.id) with
  | some u =>
      let u2 := { u with lastLogin := some now }
      .ok (u2, storeSave store u2)
  | none =>
    match store.find? (fun u => u.email == p.email) with
    | some u =>
        let linked := { u with
          googleId := some p.id
          isVerified := some true
          avatar := match p.photo with
            | some ph => some ph
            | none => u.avatar }
        let u2 := { linked with lastLogin := some now }
        .ok (u2, storeSave store u2)
    | none =>
      match userCreate fresh (part005NewUserInput p now) with
      | .ok u =>
          let u2 := { u with lastLogin := some now }
          .ok (u2, storeSave (store ++ [u]) u2)
      | .error m => .error m

/-- The create call of the part_004 Google strategy: role `user`, no
password, no verified mark. -/
def part004NewUserInput (p : GoogleProfile) : CreateInput :=
  { googleId := some p.id, email := some p.email,
    name := some p.displayName, avatar := p.photo, role := some "user" }

/-- The part_004 Google strategy verify callback: find by googleId; else
find by email and set only googleId; else create via
`part004NewUserInput`.  No lastLogin stamp anywhere. -/
def part004Verify (fresh : String) (store : List UserDoc)
    (p : GoogleProfile) : Except String (UserDoc × List UserDoc) :=
  match store.find? (fun u => u.googleId == some p.id) with
  | some u => .ok (u, store)
  | none =>
    match store.find? (fun u => u.email == p.email) with
    | some u =>
        let u2 := { u with googleId := some p.id }
        .ok (u2, storeSave store u2)
    | none =>
      match userCreate fresh (part004NewUserInput p) with
      | .ok u => .ok (u, store ++ [u])
      | .error m => .error m

/-- The `POST /api/auth/google/login` handler, after the external Google
id-token check yields a profile: find by googleId; else find by email
and link (googleId, verified, avatar overwritten by the picture); else
create exactly as the part_005 strategy does; then stamp `lastLogin`,
save, and answer via `sendTokenResponse` (200, the profile fields and a
fresh token — never the password hash).  Any thrown error, a schema
`ValidationError` included, is answered 401. -/
def googleLoginRoute (secret fresh : String) (now : Nat)
    (store : List UserDoc) (p : GoogleProfile) : HandlerResult :=
  let linked : Except String (UserDoc × List UserDoc) :=
    match store.find? (fun u => u.googleId == some p.id) with
    | some u => .ok (u, store)
    | none =>
      match store.find? (fun u => u.email == p.email) with
      | some u =>
          let u2 := { u with
            googleId := some p.id
            isVerified := some true
            avatar := p.photo }
          .ok (u2, storeSave store u2)
      | none =>
        match userCreate fresh (part005NewUserInput p now) with
        | .ok u => .ok (u, store ++ [u])
        | .error m => .error m
  match linked with
  | .ok (u, st) =>
      let u2 := { u with lastLogin := some now }
      { status := 200, message := "Authentication successful",
        data := [("id", u2.id), ("name", u2.name), ("email", u2.email),
                 ("role", u2.role), ("avatar", u2.avatar.getD "")],
        token := some (generateToken secret u2.id now),
        store := storeSave st u2 }
  | .error _ =>
      { status := 401, message := "Invalid Google token or server error",
        store := store }

/-- A concrete fresh Google profile for the OAuth scenarios. -/
def demoProfile : GoogleProfile :=
  { id := "g-123", email := "dana@x.com", displayName := "Dana",
    photo := some "http-pic" }

/-- An event document, reduced to the fields the mutation handlers
read. -/
structure EventDoc where
  id : String
  organizerId : String
  deriving Repr, DecidableEq

/-- The update-body fields the events controller validates; absent
fields are `none`.  JS falsiness of the number 0 is preserved by the
explicit truthiness tests below. -/
structure EventUpdateBody where
  date : Option Int := none
  capacity : Option Int := none
  price : Option Int := none
  deriving Repr, DecidableEq

/-- Outcome of an event mutation handler. -/
inductive EventMutationResult where
  | notFound
  | forbidden (message : String)
  | badRequest (message : String)
  | ok
  deriving Repr, DecidableEq

/-- `updateEvent` (events controller): 404 when the event is absent;
403 whenever the requester's id differs from the event's `organizerId` —
the requester's role is never consulted; then each body check (a truthy
past date, a truthy out-of-range capacity, a truthy negative price)
answers 400; otherwise the update succeeds. -/
def updateEvent (identity : PublicUser) (events : List EventDoc)
    (eid : String) (b : EventUpdateBody) (today : Int) :
    EventMutationResult :=
  match events.find? (fun e => e.id == eid) with
  | none => .notFound
  | some ev =>
    if ev.organizerId ≠ identity.id then
      .forbidden "Not authorized to update this event"
    else if (match b.date with
             | some d => decide (d < today)
             | none => false) then
      .badRequest "Event date must be in the future"
    else if (match b.capacity with
             | some cap => cap != 0 && (decide (cap < 1) || decide (cap > 10000))
             | none => false) then
      .badRequest "Capacity must be 1 to 10,000"
    else if (match b.price with
             | some pr => pr != 0 && decide (pr < 0)
             | none => false) then
      .badRequest "Price cannot be negative"
    else .ok

/-- `deleteEvent` (events controller): 404 when absent, the same
ownership-only 403, otherwise delete. -/
def deleteEvent (identity : PublicUser) (events : List EventDoc)
    (eid : String) : EventMutationResult :=
  match events.find? (fun e => e.id == eid) with
  | none => .notFound
  | some ev =>
    if ev.organizerId ≠ identity.id then
      .forbidden "Not authorized to delete this event"
    else .ok

/-- Modelled from the spec's words (section 4.5), for comparison with
the handlers: mutation permitted iff owner or admin. -/
def canMutateSpec (identity : PublicUser) (ownerId : String) : Bool :=
  identity.id == ownerId || identity.role == "admin"

/-- An admin identity that does not own `orgEvent`. -/
def adminIdentity : PublicUser :=
  { id := "u-admin", name := "Root", email := "root@x.com",
    role := "admin" }

/-- An event owned by `u-owner`. -/
def orgEvent : EventDoc := { id := "e1", organizerId := "u-owner" }

/-- The environment variables the server bootstrap consults (plus the
token secret, which it does not). -/
structure Env where
  nodeEnv : Option String := none
  jwtSecret : Option String := none
  mongoUri : Option String := none
  deriving Repr, DecidableEq

/-- Whether the process came up or exited during startup. -/
inductive BootOutcome where
  | exited
  | listening
  deriving Repr, DecidableEq

/-- The server bootstrap (server.js): `connectDB` catches its own
failure and calls `process.exit(1)` only when `NODE_ENV` is
`production`; otherwise the `connectDB().then(listen)` chain starts the
HTTP listener (the chain's own `.catch` never fires because `connectDB`
never rejects).  No configuration besides the database connection is
checked; in particular `JWT_SECRET` is never consulted at startup. -/
def serverBootstrap (env : Env) (dbConnects : Bool) : BootOutcome :=
  if dbConnects = false ∧ env.nodeEnv = some "production" then .exited
  else .listening

/-- A stored password account, persisted by the schema hook from the
plaintext `password123`; no `lastLogin` was ever written for it. -/
def alice : UserDoc :=
  { id := "u-alice", name := "Alice", email := "alice@x.com",
    password := bcryptHash "password123", role := "organizer" }

/-- A registration body that carries the explicit role `admin`. -/
def johnAdminBody : RegisterBody :=
  { name := some "John", email := some "john@x.com",
    password := some "password123", role := some "admin" }

end EventEase

namespace EventEase

/-- C8: for every subject id and every token issued for it by
`generateToken`, verifying under the same secret at any instant strictly
before the 30-day expiry succeeds and returns the original subject id. -/
theorem token_issue_verify_roundtrip (secret id : String) (now d : Nat)
    (h : d < thirtyDays) :
    jwtVerifyTok secret (generateToken secret id now) (now + d) = .ok id := by
  unfold jwtVerifyTok generateToken jwtSign
  simp only [ne_eq]
  rw [if_neg, if_neg]
  · omega
  · simp

/-- Witness for C8 at a concrete subject, secret, clock and delay. -/
theorem token_issue_verify_roundtrip_witness :
    jwtVerifyTok "s3cr3t" (generateToken "s3cr3t" "user-1" 1000) (1000 + 5) =
      .ok "user-1" :=
  token_issue_verify_roundtrip "s3cr3t" "user-1" 1000 5 (by decide)

/-- C5: the strict-mode gate fails with 401 in exactly the specified
cases, with the specified message distinctions, and on success attaches
the resolved identity (sans password) and continues; every terminating
response it produces carries status 401. -/
theorem protect_strict_mode_cases (verify : String → VerifyResult)
    (store : List UserDoc) (h c : Option String) :
    (∀ s m, protect verify store h c = .respond s m → s = 401) ∧
    (protect verify store h c = .respond 401 "Access denied. No token provided."
      ↔ extractToken h c = none) ∧
    (∀ t, extractToken h c = some t →
      (protect verify store h c = .respond 401 "Token has expired."
        ↔ verify t = .expired) ∧
      (protect verify store h c = .respond 401 "Invalid token."
        ↔ verify t = .invalid) ∧
      (∀ uid, verify t = .ok uid →
        (protect verify store h c = .respond 401 "Token is not valid. User not found."
          ↔ store.find? (fun u => u.id == uid) = none) ∧
        (∀ d, store.find? (fun u => u.id == uid) = some d →
          protect verify store h c = .proceed (some (toPublic d))))) := by
  unfold protect
  rcases hx : extractToken h c with - | t
  · simp
  · rcases hv : verify t with uid | - | -
    · rcases hf : store.find? (fun u => u.id == uid) with - | d <;>
        simp [hx, hv, hf, -List.find?_eq_none]
    · simp [hx, hv]
    · simp [hx, hv]

/-- Witness for C5: a request with neither header nor cookie is refused
with the no-token message. -/
theorem protect_strict_mode_cases_witness :
    protect (fun _ => VerifyResult.invalid) [] none none =
      .respond 401 "Access denied. No token provided." :=
  (protect_strict_mode_cases (fun _ => VerifyResult.invalid) [] none none).2.1.mpr rfl

/-- C6: the optional-mode gate never terminates the request with an
error response; with no token, an expired or invalid token, or a
verified token whose subject no longer exists, it continues with no
identity attached. -/
theorem optionalAuth_never_blocks (verify : String → VerifyResult)
    (store : List UserDoc) (h c : Option String) :
    (∀ s m, optionalAuth verify store h c ≠ .respond s m) ∧
    (extractToken h c = none → optionalAuth verify store h c = .proceed none) ∧
    (∀ t, extractToken h c = some t →
      ((verify t = .expired ∨ verify t = .invalid) →
        optionalAuth verify store h c = .proceed none) ∧
      (∀ uid, verify t = .ok uid → store.find? (fun u => u.id == uid) = none →
        optionalAuth verify store h c = .proceed none)) := by
  unfold optionalAuth
  rcases hx : extractToken h c with - | t
  · simp
  · rcases hv : verify t with uid | - | -
    · rcases hf : store.find? (fun u => u.id == uid) with - | d <;>
        simp [hx, hv, hf, -List.find?_eq_none]
    · simp [hx, hv]
    · simp [hx, hv]

/-- Witness for C6: a request with an invalid bearer token proceeds with
no identity attached. -/
theorem optionalAuth_never_blocks_witness :
    optionalAuth (fun _ => VerifyResult.invalid) [] (some "Bearer junk") none =
      .proceed none := by
  have hmain := optionalAuth_never_blocks (fun _ => VerifyResult.invalid) []
    (some "Bearer junk") none
  exact ((hmain.2.2 "junk" (by decide)).1 (Or.inr rfl))

/-- C1 (the code violates it): the single-user and user-list endpoints
serialize the stored document with no field selection, so their response
data carries the stored password hash — although registration, login and
the gate-attached identity all omit it, and the repository's own test
asserts the field is absent from the single-user response. -/
theorem getUser_response_contains_password_hash :
    getUserResult [alice] "u-alice" = .ok (serializeUser alice) ∧
    ("password", bcryptHash "password123") ∈ serializeUser alice ∧
    serializeUser alice ∈ getUsersData [alice] := by
  decide

/-- C3: every document the persisted user schema accepts carries a role
inside the closed set guest/organizer/admin (the schema enum is in fact
the subset organizer/guest), and a creation that supplies no role
defaults it to guest. -/
theorem persisted_role_in_closed_set (fresh : String) (f : CreateInput)
    (u : UserDoc) (h : userCreate fresh f = .ok u) :
    (u.role = "guest" ∨ u.role = "organizer" ∨ u.role = "admin") ∧
    (f.role = none → u.role = "guest") := by
  rcases f with ⟨n, e, p, r, g, av, iv⟩
  rcases n with - | n
  · exact absurd h (by simp [userCreate])
  rcases e with - | e
  · exact absurd h (by simp [userCreate])
  rcases p with - | p
  · exact absurd h (by simp [userCreate])
  simp only [userCreate] at h
  split_ifs at h with h1 h2 h3 h4 h5
  rw [Except.ok.injEq] at h
  subst h
  simp only [userSchemaRoleEnum, List.mem_cons, List.mem_singleton,
    List.not_mem_nil, or_false] at h5
  exact ⟨h5.elim (fun x => Or.inr (Or.inl x)) (fun x => Or.inl x),
         fun hr => by
           have hr2 : r = none := hr
           subst hr2
           rfl⟩

/-- Witness for C3 at a concrete creation with no role supplied. -/
theorem persisted_role_in_closed_set_witness :
    (({ id := "u1", name := "Bob", email := "b@x.com",
        password := bcryptHash "secretpw", role := "guest" } : UserDoc).role
          = "guest" ∨
     ({ id := "u1", name := "Bob", email := "b@x.com",
        password := bcryptHash "secretpw", role := "guest" } : UserDoc).role
          = "organizer" ∨
     ({ id := "u1", name := "Bob", email := "b@x.com",
        password := bcryptHash "secretpw", role := "guest" } : UserDoc).role
          = "admin") ∧
    (({ name := some "Bob", email := some "b@x.com",
        password := some "secretpw" } : CreateInput).role = none →
     ({ id := "u1", name := "Bob", email := "b@x.com",
        password := bcryptHash "secretpw", role := "guest" } : UserDoc).role
          = "guest") :=
  persisted_role_in_closed_set "u1"
    { name := some "Bob", email := some "b@x.com", password := some "secretpw" }
    { id := "u1", name := "Bob", email := "b@x.com",
      password := bcryptHash "secretpw", role := "guest" }
    (by decide)

/-- C7 (the code violates it): a successful password login answers 200
yet performs no store write — in particular no last-login stamp is
recorded anywhere (the document has none before or after), unlike the
OAuth sign-in handlers. -/
theorem password_login_leaves_lastLogin_unset :
    (loginUser "s3cr3t" 7777 [alice] (some "alice@x.com")
      (some "password123")).status = 200 ∧
    (loginUser "s3cr3t" 7777 [alice] (some "alice@x.com")
      (some "password123")).store = [alice] ∧
    alice.lastLogin = none := by
  decide

/-- C10 (the first half fails on the code): a registration body carrying
the explicit role `admin` passes `validateUserCreation`, yet the
persisted schema's enum rejects the create, so the route answers 400 and
no identity at all is created. -/
theorem register_admin_role_rejected :
    validateUserCreation demoIsEmail johnAdminBody = [] ∧
    (registerRoute demoIsEmail "s3cr3t" 7777 "u-new" [] johnAdminBody).status
      = 400 ∧
    (registerRoute demoIsEmail "s3cr3t" 7777 "u-new" [] johnAdminBody).store
      = [] := by
  decide

/-- C2 (refuted as stated): an admin identity that does not own the
event is still refused by both mutation handlers — the spec-modelled
`canMutateSpec` permits it, the code answers 403. -/
theorem admin_nonowner_mutation_forbidden :
    canMutateSpec adminIdentity orgEvent.organizerId = true ∧
    updateEvent adminIdentity [orgEvent] "e1" {} 0 =
      .forbidden "Not authorized to update this event" ∧
    deleteEvent adminIdentity [orgEvent] "e1" =
      .forbidden "Not authorized to delete this event" := by
  decide

/-- C2 amended: for an event present in the store, update and delete
are forbidden exactly when the requester's id differs from the event's
organizerId; the requester's role — admin included — never changes
either decision. -/
theorem event_mutation_owner_only (identity : PublicUser)
    (events : List EventDoc) (eid : String) (b : EventUpdateBody)
    (today : Int) (ev : EventDoc)
    (hf : events.find? (fun e => e.id == eid) = some ev) :
    ((∃ m, updateEvent identity events eid b today = .forbidden m) ↔
      ev.organizerId ≠ identity.id) ∧
    ((∃ m, deleteEvent identity events eid = .forbidden m) ↔
      ev.organizerId ≠ identity.id) ∧
    (∀ r, updateEvent { identity with role := r } events eid b today =
        updateEvent identity events eid b today ∧
      deleteEvent { identity with role := r } events eid =
        deleteEvent identity events eid) := by
  refine ⟨?_, ?_, fun r => ⟨rfl, rfl⟩⟩
  · simp only [updateEvent, hf]
    by_cases ho : ev.organizerId = identity.id
    · rw [if_neg (not_not_intro ho)]
      constructor
      · rintro ⟨m, hm⟩
        split_ifs at hm
      · intro hne
        exact absurd ho hne
    · rw [if_pos ho]
      exact ⟨fun _ => ho, fun _ => ⟨_, rfl⟩⟩
  · simp only [deleteEvent, hf]
    by_cases ho : ev.organizerId = identity.id
    · rw [if_neg (not_not_intro ho)]
      exact ⟨fun hex => EventMutationResult.noConfusion hex.choose_spec,
             fun hne => absurd ho hne⟩
    · rw [if_pos ho]
      exact ⟨fun _ => ho, fun _ => ⟨_, rfl⟩⟩

/-- The owner of `orgEvent`, carrying only the guest role. -/
def ownerIdentity : PublicUser :=
  { id := "u-owner", name := "Owner", email := "owner@x.com",
    role := "guest" }

/-- Witness for the amended C2: giving the owner the admin role changes
neither mutation decision. -/
theorem event_mutation_owner_only_witness :
    updateEvent { ownerIdentity with role := "admin" } [orgEvent] "e1" {} 0 =
      updateEvent ownerIdentity [orgEvent] "e1" {} 0 ∧
    deleteEvent { ownerIdentity with role := "admin" } [orgEvent] "e1" =
      deleteEvent ownerIdentity [orgEvent] "e1" :=
  (event_mutation_owner_only ownerIdentity [orgEvent] "e1" {} 0 orgEvent
    (by decide)).2.2 "admin"

/-- A production environment with the token secret unset. -/
def prodNoSecretEnv : Env :=
  { nodeEnv := some "production", jwtSecret := none,
    mongoUri := some "mongodb-atlas-uri" }

/-- C9 (refuted): with the token-signing secret unset in a
production-flagged environment, startup still succeeds — the bootstrap
never consults the secret, so the process does not fail fatally. -/
theorem bootstrap_ignores_missing_jwt_secret :
    prodNoSecretEnv.jwtSecret = none ∧
    prodNoSecretEnv.nodeEnv = some "production" ∧
    serverBootstrap prodNoSecretEnv true = .listening ∧
    serverBootstrap prodNoSecretEnv true ≠ .exited := by
  decide

/-- C9 amended: startup exits only when the database connection fails in
production mode, and the outcome is invariant in the token secret. -/
theorem bootstrap_exit_characterization (env : Env) (db : Bool) :
    (serverBootstrap env db = .exited ↔
      db = false ∧ env.nodeEnv = some "production") ∧
    (∀ s, serverBootstrap { env with jwtSecret := s } db =
      serverBootstrap env db) := by
  constructor
  · unfold serverBootstrap
    split_ifs with hcond
    · exact ⟨fun _ => hcond, fun _ => rfl⟩
    · refine ⟨fun hx => absurd hx ?_, fun hx => absurd hx hcond⟩
      simp
  · intro s
    rfl

/-- C4 (refuted on the part_004 strategy): for a fresh profile unknown
to the store, the part_004 create call passes role `user` — not guest —
and no credential at all, so the persisted schema rejects the creation
outright. -/
theorem part004_new_oauth_user_not_guest :
    (part004NewUserInput demoProfile).role = some "user" ∧
    (part004NewUserInput demoProfile).password = none ∧
    part004Verify "u-new" [] demoProfile = .error "Password is required" := by
  decide

/-- C4 amended, on the part_005 strategy (whose create call the
`/google/login` handler repeats verbatim): a profile matching no stored
googleId and no stored email yields a new identity carrying the
profile's name, email and googleId, role guest, a verified mark, the
profile photo, a `google-auth-` timestamp-derived credential placeholder
(deterministic, not random), and a fresh last-login stamp. -/
theorem oauth_new_identity_fields (fresh : String) (now : Nat)
    (store : List UserDoc) (p : GoogleProfile) (u : UserDoc)
    (st : List UserDoc)
    (hok : part005Verify fresh now store p = .ok (u, st))
    (hg : store.find? (fun v => v.googleId == some p.id) = none)
    (he : store.find? (fun v => v.email == p.email) = none) :
    u.name = jsTrim p.displayName ∧
    u.email = jsTrim (jsToLower p.email) ∧
    u.googleId = some p.id ∧
    u.role = "guest" ∧
    u.isVerified = some true ∧
    u.avatar = p.photo ∧
    u.password = bcryptHash ("google-auth-" ++ toString now) ∧
    u.lastLogin = some now := by
  simp only [part005Verify, hg, he] at hok
  rcases hc : userCreate fresh (part005NewUserInput p now) with m | v
  · rw [hc] at hok
    exact Except.noConfusion hok
  · rw [hc] at hok
    rw [Except.ok.injEq, Prod.mk.injEq] at hok
    obtain ⟨hu, -⟩ := hok
    subst hu
    simp only [userCreate, part005NewUserInput] at hc
    split_ifs at hc with h1 h2 h3 h4 h5
    rw [Except.ok.injEq] at hc
    subst hc
    exact ⟨rfl, rfl, rfl, rfl, rfl, rfl, rfl, rfl⟩

/-- The identity the part_005 strategy creates for `demoProfile` at
instant 7777 with fresh id `u-new`. -/
def danaDoc : UserDoc :=
  { id := "u-new", name := "Dana", email := "dana@x.com",
    password := bcryptHash "google-auth-7777", role := "guest",
    googleId := some "g-123", avatar := some "http-pic",
    isVerified := some true, lastLogin := some 7777 }

/-- Witness for the amended C4 at `demoProfile` over the store holding
only `alice`. -/
theorem oauth_new_identity_fields_witness :
    danaDoc.name = jsTrim demoProfile.displayName ∧
    danaDoc.email = jsTrim (jsToLower demoProfile.email) ∧
    danaDoc.googleId = some demoProfile.id ∧
    danaDoc.role = "guest" ∧
    danaDoc.isVerified = some true ∧
    danaDoc.avatar = demoProfile.photo ∧
    danaDoc.password = bcryptHash ("google-auth-" ++ toString 7777) ∧
    danaDoc.lastLogin = some 7777 :=
  oauth_new_identity_fields "u-new" 7777 [alice] demoProfile danaDoc
    [alice, danaDoc] (by decide) (by decide) (by decide)

/-- C7 amended: the password-login handler performs no store write at
all — in particular it records no last-login stamp — while every
successful OAuth sign-in through the part_005 strategy hands on a user
stamped `lastLogin = now`. -/
theorem lastLogin_updated_only_by_oauth (secret : String) (now : Nat)
    (store : List UserDoc) (email password : Option String)
    (fresh : String) (p : GoogleProfile) (u : UserDoc)
    (st : List UserDoc)
    (hok : part005Verify fresh now store p = .ok (u, st)) :
    (loginUser secret now store email password).store = store ∧
    u.lastLogin = some now := by
  constructor
  · unfold loginUser
    split_ifs
    · rfl
    · rcases hf : store.find? (fun v => v.email == email.getD "") with - | v
      · rw [hf]
      · simp only [hf]
        split_ifs <;> rfl
  · unfold part005Verify at hok
    rcases h1 : store.find? (fun v => v.googleId == some p.id) with - | v
    · rw [h1] at hok
      rcases h2 : store.find? (fun v => v.email == p.email) with - | w
      · rw [h2] at hok
        rcases hc : userCreate fresh (part005NewUserInput p now) with m | v
        · rw [hc] at hok
          exact Except.noConfusion hok
        · rw [hc] at hok
          rw [Except.ok.injEq, Prod.mk.injEq] at hok
          obtain ⟨hu, -⟩ := hok
          subst hu
          rfl
      · rw [h2] at hok
        rw [Except.ok.injEq, Prod.mk.injEq] at hok
        obtain ⟨hu, -⟩ := hok
        subst hu
        rfl
    · rw [h1] at hok
      rw [Except.ok.injEq, Prod.mk.injEq] at hok
      obtain ⟨hu, -⟩ := hok
      subst hu
      rfl

/-- The bcrypt tag adds a 7-character prefix. -/
theorem bcryptHash_length (s : String) :
    (bcryptHash s).length = 7 + s.length := by
  simp [bcryptHash, String.length_append]
  rfl

/-- A bcrypt hash is never the empty string. -/
theorem bcryptHash_ne_empty (s : String) : bcryptHash s ≠ "" := by
  intro h
  have h2 : (bcryptHash s).length = 0 := by rw [h]; rfl
  rw [bcryptHash_length] at h2
  omega

/-- C10 amended: a registration that passes `validateUserCreation` with
a nonblank email unknown to the store creates the identity with the
caller-supplied role whenever that role lies in the persisted schema's
enum (guest or organizer), and defaults to guest when the role is
omitted; the validator-allowed role admin instead fails at the store
(see the admin counterexample). -/
theorem register_role_honored_within_schema
    (isEmail : String → Bool) (secret : String) (now : Nat)
    (fresh : String) (store : List UserDoc) (b : RegisterBody)
    (hv : validateUserCreation isEmail b = [])
    (hemail : jsTrim (b.email.getD "") ≠ "")
    (hdup : store.find? (fun u => u.email == b.email.getD "") = none) :
    (b.role = none →
      ∃ u, registerRoute isEmail secret now fresh store b =
        { status := 201, message := "User registered successfully",
          data := [("_id", u.id), ("name", u.name), ("email", u.email),
                   ("role", u.role)],
          token := some (generateToken secret u.id now),
          store := store ++ [u] } ∧ u.role = "guest") ∧
    (∀ r, b.role = some r → (r = "guest" ∨ r = "organizer") →
      ∃ u, registerRoute isEmail secret now fresh store b =
        { status := 201, message := "User registered successfully",
          data := [("_id", u.id), ("name", u.name), ("email", u.email),
                   ("role", u.role)],
          token := some (generateToken secret u.id now),
          store := store ++ [u] } ∧ u.role = r) := by
  have hroute : registerRoute isEmail secret now fresh store b =
      registerUser secret now fresh store b := by
    unfold registerRoute
    rw [if_pos hv]
  simp only [validateUserCreation, List.append_eq_nil] at hv
  obtain ⟨⟨⟨⟨⟨⟨h1, -⟩, h3⟩, -⟩, -⟩, -⟩, -⟩ := hv
  have hc1 : ¬(strTruthy b.name = false ∨
      (jsTrim (b.name.getD "")).length < 2) := by
    intro hc
    rw [if_pos hc] at h1
    exact List.noConfusion h1
  have hc3 : ¬(strTruthy b.email = false ∨
      isEmail (b.email.getD "") = false) := by
    intro hc
    rw [if_pos hc] at h3
    exact List.noConfusion h3
  push_neg at hc1 hc3
  rcases hbn : b.name with - | n
  · rw [hbn] at hc1
    exact absurd rfl hc1.1
  rcases hbe : b.email with - | e
  · rw [hbe] at hc3
    exact absurd rfl hc3.1
  have hn2 : ¬((jsTrim n).length < 2) := by
    have hx := hc1.2
    rw [hbn] at hx
    simp only [Option.getD_some] at hx
    omega
  have hnne : jsTrim n ≠ "" := by
    intro hq
    apply hn2
    rw [hq]
    decide
  have hene : jsTrim e ≠ "" := by
    rw [hbe] at hemail
    exact hemail
  have hmain : ∀ rr : String, b.role.getD "guest" = rr →
      rr ∈ userSchemaRoleEnum →
      ∃ u, registerRoute isEmail secret now fresh store b =
        { status := 201, message := "User registered successfully",
          data := [("_id", u.id), ("name", u.name), ("email", u.email),
                   ("role", u.role)],
          token := some (generateToken secret u.id now),
          store := store ++ [u] } ∧ u.role = rr := by
    intro rr hrr hmem
    rw [hroute]
    unfold registerUser
    rw [hdup]
    rw [if_neg (by decide : ¬((none : Option UserDoc).isSome = true))]
    rw [hbn, hbe]
    simp only [userCreate, Option.getD_some]
    rw [hrr]
    rw [if_neg hnne]
    rw [if_neg hene]
    rw [if_neg (bcryptHash_ne_empty (b.password.getD ""))]
    rw [if_neg (show ¬((bcryptHash (b.password.getD "")).length < 6) by
      rw [bcryptHash_length]; omega)]
    rw [if_neg (not_not_intro hmem)]
    exact ⟨_, rfl, rfl⟩
  refine ⟨fun hbr => ?_, fun r hbr hr => ?_⟩
  · exact hmain "guest" (by rw [hbr]; rfl) (by decide)
  · exact hmain r (by rw [hbr]; rfl)
      (by rcases hr with h | h <;> (rw [h]; decide))

/-- A registration body with the explicit role organizer. -/
def jadeOrganizerBody : RegisterBody :=
  { name := some "Jade", email := some "jade@x.com",
    password := some "password123", role := some "organizer" }

/-- Witness for the amended C10: registering with explicit role
organizer creates the identity with role organizer. -/
theorem register_role_honored_within_schema_witness :
    ∃ u, registerRoute demoIsEmail "s3cr3t" 7777 "u-jade" [] jadeOrganizerBody =
      { status := 201, message := "User registered successfully",
        data := [("_id", u.id), ("name", u.name), ("email", u.email),
                 ("role", u.role)],
        token := some (generateToken "s3cr3t" u.id 7777),
        store := [] ++ [u] } ∧ u.role = "organizer" :=
  (register_role_honored_within_schema demoIsEmail "s3cr3t" 7777 "u-jade" []
    jadeOrganizerBody (by decide) (by decide) (by decide)).2 "organizer"
    rfl (Or.inr rfl)

/-- Witness for the amended C7: a concrete successful password login
returns the store unchanged, while the part_005 OAuth sign-in at the
same instant hands on a last-login stamp. -/
theorem lastLogin_updated_only_by_oauth_witness :
    (loginUser "s3cr3t" 7777 [alice] (some "alice@x.com")
      (some "password123")).store = [alice] ∧
    danaDoc.lastLogin = some 7777 :=
  lastLogin_updated_only_by_oauth "s3cr3t" 7777 [alice]
    (some "alice@x.com") (some "password123") "u-new" demoProfile danaDoc
    [alice, danaDoc] (by decide)

end EventEase
